import Mathlib

/-!
Verification of the feedback-classification decision engine
(`tool_gemini.py`, `autogen_pipeline.py`, `gemini_client.py`).

The Python source is shallowly embedded: pure functions become Lean
functions, Python `str` becomes `String`, Python `float` confidences and
ratings become `ℚ` (the source only ever compares and averages decimal
literals), Python `dict` replies from the reasoning backend become an
explicit JSON value type, and the backend call itself is a parameter
(its outcome is an input to the embedded decision functions).
-/

namespace Capstone

/-! ### Python string primitives

All of these recurse structurally on the character list so that concrete
computations reduce inside the kernel. -/

/-- Models Python `str.lower()` (the source only feeds ASCII trigger
keywords and ASCII review text through it). -/
def pyLower (s : String) : String := String.mk (s.data.map Char.toLower)

/-- Substring occurrence on character lists: the needle is a prefix of
some suffix of the haystack. -/
def charsIn (ns : List Char) : List Char → Bool
  | [] => ns.isEmpty
  | c :: t => ns.isPrefixOf (c :: t) || charsIn ns t

/-- Models the Python substring test `needle in haystack`. -/
def pyIn (needle haystack : String) : Bool :=
  charsIn needle.data haystack.data

/-- Models Python prefix slicing `s[:n]` (code points). -/
def pyTake (s : String) (n : Nat) : String :=
  String.mk (s.data.take n)

/-- Models Python slicing `s[a:b]` for `0 ≤ a ≤ b` (code points). -/
def pySlice (s : String) (a b : Nat) : String :=
  String.mk ((s.data.drop a).take (b - a))

/-- Models Python `s.find(c)`: index of the first occurrence, `none` for `-1`. -/
def pyFind (s : String) (c : Char) : Option Nat :=
  s.data.findIdx? (fun d => d = c)

/-- Models Python `s.rfind(c)`: index of the last occurrence, `none` for `-1`. -/
def pyRfind (s : String) (c : Char) : Option Nat :=
  (s.data.reverse.findIdx? (fun d => d = c)).map
    (fun i => s.data.length - 1 - i)

/-- Whitespace stripped by Python `str.strip()`. -/
def isPyWs (c : Char) : Bool :=
  c = ' ' || c = Char.ofNat 9 || c = Char.ofNat 10 || c = Char.ofNat 13
    || c = Char.ofNat 11 || c = Char.ofNat 12

/-- Models Python `s.strip()`. -/
def pyStrip (s : String) : String :=
  String.mk (((s.data.dropWhile isPyWs).reverse.dropWhile isPyWs).reverse)

/-! ### Fallback Rule Engine (`tool_gemini.py`, lines 37-82) -/

/-- `BUG_TRIGGERS` from `tool_gemini.py`. -/
def BUG_TRIGGERS : List String :=
  ["crash", "error", "exception", "freeze", "not working", "can\x27t login",
   "cannot login", "login issue", "stopped working", "data loss", "sync issue",
   "sync not", "fails to", "bug"]

/-- `FEATURE_TRIGGERS` from `tool_gemini.py`. -/
def FEATURE_TRIGGERS : List String :=
  ["please add", "would love", "feature request", "missing", "could you",
   "add support", "add dark mode"]

/-- `PRAISE_TRIGGERS` from `tool_gemini.py`. -/
def PRAISE_TRIGGERS : List String :=
  ["love", "amazing", "perfect", "best", "smooth", "works great"]

/-- `COMPLAINT_TRIGGERS` from `tool_gemini.py`. -/
def COMPLAINT_TRIGGERS : List String :=
  ["slow", "lag", "expensive", "poor", "bad", "annoying", "ads",
   "too many ads", "pricey", "support is"]

/-- `SPAM_TRIGGERS` from `tool_gemini.py`. -/
def SPAM_TRIGGERS : List String :=
  ["http", "www", "visit", "free", "money", "channel", "asdf",
   "subscribe", "coins", "discount code"]

/-- `_contains_any(text, needles)`: lowercase the text, then test whether
any needle is a substring. -/
def contains_any (text : String) (needles : List String) : Bool :=
  needles.any (fun n => pyIn n (pyLower text))

/-- `fallback_classify(text, rating)` from `tool_gemini.py`: ordered
waterfall of trigger tests, then the rating thresholds, else Other. -/
def fallback_classify (text : String) (rating : Option ℚ) : String × ℚ × String :=
  if contains_any text SPAM_TRIGGERS then
    ("Spam", 0.95, "spam trigger")
  else if contains_any text BUG_TRIGGERS then
    let conf : ℚ :=
      if pyIn "crash" (pyLower text) || pyIn "data loss" (pyLower text) then 0.9 else 0.75
    ("Bug", conf, "bug trigger")
  else if contains_any text FEATURE_TRIGGERS then
    ("Feature Request", 0.8, "feature trigger")
  else if contains_any text PRAISE_TRIGGERS then
    ("Praise", 0.7, "praise trigger")
  else if contains_any text COMPLAINT_TRIGGERS then
    ("Complaint", 0.7, "complaint trigger")
  else
    match rating with
    | some r =>
      if r ≤ 2 then ("Complaint", 0.55, "rating fallback")
      else if 4 ≤ r then ("Praise", 0.55, "rating fallback")
      else ("Other", 0.4, "default fallback")
    | none => ("Other", 0.4, "default fallback")

/-- `fallback_bug_analysis(text, platform, app_version)` from
`tool_gemini.py`: rule-based severity plus a detail string. -/
def fallback_bug_analysis (text platform app_version : String) :
    String × String × String :=
  let sev :=
    if pyIn "crash" (pyLower text) || pyIn "data loss" (pyLower text)
       || pyIn "can\x27t login" (pyLower text) || pyIn "cannot login" (pyLower text)
    then "High" else "Medium"
  (sev,
   "Platform=" ++ platform ++ "; Version=" ++ app_version ++ "; Summary=" ++ pyTake text 140,
   "rule-based severity")

/-- `fallback_feature(text)` from `tool_gemini.py`: keyword-set impact
scoring. -/
def fallback_feature (text : String) : String × String × String :=
  let low := ["widget", "export", "multiple accounts"]
  let high := ["dark mode", "calendar", "integration"]
  if high.any (fun h => pyIn h (pyLower text)) then
    ("High", "Feature: " ++ pyTake text 140, "high-impact trigger")
  else if low.any (fun l => pyIn l (pyLower text)) then
    ("Medium", "Feature: " ++ pyTake text 140, "medium-impact trigger")
  else
    ("Low", "Feature: " ++ pyTake text 140, "low-impact default")

/-! ### Data model (`tool_gemini.py` `Ticket`, `autogen_pipeline.py` log rows) -/

/-- The `Ticket` dataclass from `tool_gemini.py`. -/
structure Ticket where
  ticket_id : String
  source_id : String
  source_type : String
  category : String
  priority : String
  title : String
  technical_details : String
  created_at : String
  confidence : ℚ
  link_back : String
deriving DecidableEq, Repr

/-- `create_ticket(...)` from `tool_gemini.py`. The wall-clock timestamp
`datetime.now()` is an input (`now`). -/
def create_ticket (feedback_id source_type category priority title
    technical_details : String) (confidence : ℚ) (link_back : String)
    (now : String) : Ticket :=
  { ticket_id := "T" ++ feedback_id
    source_id := feedback_id
    source_type := source_type
    category := category
    priority := priority
    title := title
    technical_details := technical_details
    created_at := now
    confidence := confidence
    link_back := link_back }

/-- The fallback branch of `critic_with_gemini` (`tool_gemini.py`,
lines 139-143): copy the ticket record, and force priority to Low when
category is Spam or Praise and priority is High or Critical. -/
def critic_fallback (t : Ticket) : Ticket :=
  if (t.category = "Spam" ∨ t.category = "Praise")
      ∧ (t.priority = "High" ∨ t.priority = "Critical") then
    { t with priority := "Low" }
  else
    t

/-- `severity -> priority` map from `autogen_pipeline.py` line 110:
`dict.get` with default "Medium". -/
def severity_to_priority (sev : String) : String :=
  if sev = "Critical" then "Critical"
  else if sev = "High" then "High"
  else if sev = "Medium" then "Medium"
  else if sev = "Low" then "Low"
  else "Medium"

/-- `impact -> priority` map from `autogen_pipeline.py` line 115:
`dict.get` with default "Low". -/
def impact_to_priority (imp : String) : String :=
  if imp = "High" then "High"
  else if imp = "Medium" then "Medium"
  else if imp = "Low" then "Low"
  else "Low"

/-- The category branch of `row_to_ticket` (`autogen_pipeline.py` lines
100-128) in fallback mode: the (priority, title_hint, details) triple the
branch leaves behind, starting from the pre-branch defaults priority =
"Low", title_hint = `text[:72] or f"{category} item"`, details =
`f"Summary={text[:240]}"`. -/
def category_branch (category text platform version : String) :
    String × String × String :=
  if category = "Bug" then
    let b := fallback_bug_analysis text platform version
    (severity_to_priority b.1, "Bug: " ++ pyTake text 72, b.2.1)
  else if category = "Feature Request" then
    let f := fallback_feature text
    -- `suggested_title or f"Feature: ..."`: the rationale tag is bound to
    -- suggested_title by the tuple unpacking in the source
    (impact_to_priority f.1,
     if f.2.2 = "" then "Feature: " ++ pyTake text 72 else f.2.2,
     f.2.1)
  else if category = "Complaint" then
    ("Medium", "Complaint: " ++ pyTake text 72, "Complaint: " ++ pyTake text 240)
  else if category = "Praise" then
    ("Low", "Praise", "Positive feedback")
  else if category = "Spam" then
    ("Low", "Spam", "Likely spam")
  else
    ("Low",
     if pyTake text 72 = "" then category ++ " item" else pyTake text 72,
     "Summary=" ++ pyTake text 240)

/-- `row_to_ticket` from `autogen_pipeline.py` (lines 79-142),
specialised to fallback mode (`g.enabled = false`), where every
`*_with_gemini` call returns its deterministic fallback.  The row fields
the function reads (`review_id`/`email_id`, text, rating, platform,
version, url) are passed explicitly; `now` is the build timestamp. -/
def row_to_ticket_fallback (review_id text : String) (rating : Option ℚ)
    (platform version source_type url now : String) : Ticket :=
  let c := fallback_classify text rating
  let category := c.1
  let conf := c.2.1
  let pd := category_branch category text platform version
  let priority := pd.1
  let title_hint := pd.2.1
  let details := pd.2.2
  -- compose_ticket fallback: pure truncation (tool_gemini.py line 125)
  let title := pyTake title_hint 80
  let body := pyTake details 400
  -- `body if body else details`
  create_ticket review_id source_type category priority title
    (if body = "" then details else body) conf url now

/-! ### Backend replies (`gemini_client.py`, callers in `tool_gemini.py`)

A backend reply is a parsed JSON value; objects are association lists.
The remote call itself is not executable, so the wrapped decision
functions take the adapter's outcome as a parameter. -/

/-- Python/JSON values as the backend can return them. -/
inductive PyVal where
  | str : String → PyVal
  | num : ℚ → PyVal
  | bool : Bool → PyVal
  | arr : List PyVal → PyVal
  | obj : List (String × PyVal) → PyVal
  | null : PyVal

/-- `d[k]` / `k in d` lookup on a JSON object (first binding wins). -/
def lookupKV (kvs : List (String × PyVal)) (k : String) : Option PyVal :=
  (kvs.find? (fun p => p.1 == k)).map (fun p => p.2)

/-- Models Python `float(v)` on the JSON value shapes the classifier
contract produces; exact on numbers and booleans (`float(True) = 1.0`). -/
def pyFloat : PyVal → ℚ
  | .num q => q
  | .bool b => if b then 1 else 0
  | _ => 0

/-- Reads a JSON value where the contract promises a string; exact on the
string shape. -/
def pyToStr : PyVal → String
  | .str s => s
  | _ => ""

/-! ### Reasoning Backend Adapter (`gemini_client.py`, `ask_json`) -/

/-- Outcome of the remote call `generate_content` + `resp.text`:
either the reply text (with `resp.text or ""` applied) or a raised
exception. -/
inductive TransportOutcome where
  | reply : String → TransportOutcome
  | exn : String → TransportOutcome

/-- `GeminiClient.ask_json` from `gemini_client.py`.  `loads` models
`json.loads` (`none` = the parse raised).  The `try/except` blocks in the
source wrap only the two `json.loads` calls; the transport call sits
outside them, so a transport exception leaves the function as an
exception (`Except.error`), not as `None`. -/
def ask_json (enabled : Bool) (transport : TransportOutcome)
    (loads : String → Option PyVal) : Except String (Option PyVal) :=
  if !enabled then .ok none
  else
    match transport with
    | .exn e => .error e
    | .reply raw =>
      let text := pyStrip raw
      match loads text with
      | some v => .ok (some v)
      | none =>
        match pyFind text (Char.ofNat 123), pyRfind text (Char.ofNat 125) with
        | some st, some en =>
          if st < en then .ok (loads (pySlice text st (en + 1)))
          else .ok none
        | _, _ => .ok none

/-! ### Decision steps with backend (`tool_gemini.py`, lines 91-143)

Each embedded step takes the adapter outcome `out : Option PyVal`
(`none` = backend unavailable or reply unparsable); when
`enabled = false` the source never calls the adapter, so `out` is
irrelevant on that path. -/

/-- `classify_with_gemini` from `tool_gemini.py`: accept the backend
reply only when it is a dict containing `"category"`; otherwise fall
back to `fallback_classify`. -/
def classify_with_gemini (enabled : Bool) (out : Option PyVal)
    (text : String) (rating : Option ℚ) : String × ℚ × String :=
  match enabled, out with
  | true, some (.obj kvs) =>
    if (lookupKV kvs "category").isSome then
      (pyToStr ((lookupKV kvs "category").getD (.str "Other")),
       pyFloat ((lookupKV kvs "confidence").getD (.num 0.6)),
       pyToStr ((lookupKV kvs "brief_rationale").getD (.str "")))
    else fallback_classify text rating
  | _, _ => fallback_classify text rating

/-- `compose_ticket_with_gemini` from `tool_gemini.py`: accept the
backend reply only when it is a dict containing both `"title"` and
`"body"`; otherwise trim the hints (`title_hint[:80]`, `body_hint[:400]`).
The `[:120]`/`[:500]` truncations in the source apply to the outbound
payload only and do not affect the returned value. -/
def compose_ticket_with_gemini (enabled : Bool) (out : Option PyVal)
    (title_hint body_hint : String) : String × String :=
  match enabled, out with
  | true, some (.obj kvs) =>
    match lookupKV kvs "title", lookupKV kvs "body" with
    | some tv, some bv => (pyTake (pyToStr tv) 80, pyToStr bv)
    | _, _ => (pyTake title_hint 80, pyTake body_hint 400)
  | _, _ => (pyTake title_hint 80, pyTake body_hint 400)

/-- `analyze_bug_with_gemini` from `tool_gemini.py`: accept the backend
reply only when it is a dict containing `"severity"`; otherwise fall
back to `fallback_bug_analysis`. -/
def analyze_bug_with_gemini (enabled : Bool) (out : Option PyVal)
    (text platform app_version : String) : String × String × String :=
  match enabled, out with
  | true, some (.obj kvs) =>
    if (lookupKV kvs "severity").isSome then
      (pyToStr ((lookupKV kvs "severity").getD (.str "Medium")),
       pyToStr ((lookupKV kvs "technical_details").getD (.str "")),
       pyToStr ((lookupKV kvs "brief_rationale").getD (.str "")))
    else fallback_bug_analysis text platform app_version
  | _, _ => fallback_bug_analysis text platform app_version

/-- `extract_feature_with_gemini` from `tool_gemini.py`: accept the
backend reply only when it is a dict containing `"impact"`; otherwise
fall back to `fallback_feature`. -/
def extract_feature_with_gemini (enabled : Bool) (out : Option PyVal)
    (text : String) : String × String × String :=
  match enabled, out with
  | true, some (.obj kvs) =>
    if (lookupKV kvs "impact").isSome then
      (pyToStr ((lookupKV kvs "impact").getD (.str "Low")),
       pyToStr ((lookupKV kvs "details").getD (.str ("Feature: " ++ pyTake text 140))),
       pyToStr ((lookupKV kvs "suggested_title").getD (.str "Feature")))
    else fallback_feature text
  | _, _ => fallback_feature text

/-- The critic's backend merge (`tool_gemini.py` lines 133-138): start
from a copy of the ticket and overwrite each returned field other than
`"ok"`.  The ticket record is a fixed-schema dataclass dict, so the merge
is modelled field by field. -/
def merge_corrections (t : Ticket) (kvs : List (String × PyVal)) : Ticket :=
  { ticket_id := (lookupKV kvs "ticket_id").elim t.ticket_id pyToStr
    source_id := (lookupKV kvs "source_id").elim t.source_id pyToStr
    source_type := (lookupKV kvs "source_type").elim t.source_type pyToStr
    category := (lookupKV kvs "category").elim t.category pyToStr
    priority := (lookupKV kvs "priority").elim t.priority pyToStr
    title := (lookupKV kvs "title").elim t.title pyToStr
    technical_details := (lookupKV kvs "technical_details").elim t.technical_details pyToStr
    created_at := (lookupKV kvs "created_at").elim t.created_at pyToStr
    confidence := (lookupKV kvs "confidence").elim t.confidence pyFloat
    link_back := (lookupKV kvs "link_back").elim t.link_back pyToStr }

/-- `critic_with_gemini` from `tool_gemini.py` (lines 127-143): backend
path accepts on `ok is True`, merges corrections otherwise; every other
case runs the fallback sanity rule. -/
def critic_with_gemini (enabled : Bool) (out : Option PyVal) (t : Ticket) : Ticket :=
  match enabled, out with
  | true, some (.obj kvs) =>
    match lookupKV kvs "ok" with
    | some (.bool true) => t
    | _ => merge_corrections t kvs
  | _, _ => critic_fallback t

/-! ### Metrics Aggregator (`tool_gemini.py`, `compute_metrics`) -/

/-- One row of the processing log built in `autogen_pipeline.py`
(lines 153-159). -/
structure LogEntry where
  source_id : String
  source_type : String
  category : String
  priority : String
  confidence : ℚ

/-- A row of the expected-classification reference table. -/
structure ExpectedRow where
  source_id : String
  category : String

/-- The expected-classification reference table; `has_category` records
whether the optional `category` column is present. -/
structure ExpectedTable where
  has_category : Bool
  rows : List ExpectedRow

/-- The single-row summary produced by `compute_metrics`;
`category_accuracy` is `none` when the column is omitted. -/
structure MetricsSummary where
  total_items : Nat
  bug : Nat
  feature_request : Nat
  praise : Nat
  complaint : Nat
  spam : Nat
  other : Nat
  avg_confidence : ℚ
  category_accuracy : Option ℚ

/-- The pandas inner merge `processing_log.merge(expected, on="source_id")`:
every log row paired with every reference row carrying the same source id,
in left-then-right order. -/
def merge_on_source_id (log : List LogEntry) (ref : List ExpectedRow) :
    List (LogEntry × ExpectedRow) :=
  log.flatMap (fun l => (ref.filter (fun r => r.source_id = l.source_id)).map (fun r => (l, r)))

/-- `compute_metrics(processing_log, expected)` from `tool_gemini.py`
(lines 164-176).  Both tables always carry a `category` column once the
guard on the reference passed, so the suffixed `category_expected`
column always exists in the merge and the inner column check of the
source is always true. -/
def compute_metrics (log : List LogEntry) (expected : Option ExpectedTable) :
    MetricsSummary :=
  let count := fun (k : String) => (log.filter (fun e => e.category = k)).length
  let avg : ℚ :=
    if log.length ≠ 0 then (log.map LogEntry.confidence).sum / (log.length : ℚ) else 0
  let acc : Option ℚ :=
    match expected with
    | some ref =>
      if ref.has_category then
        let merged := merge_on_source_id log ref.rows
        some (if merged.length ≠ 0 then
                (((merged.filter (fun p => p.1.category = p.2.category)).length : ℚ)
                  / (merged.length : ℚ))
              else 0)
      else none
    | none => none
  { total_items := log.length
    bug := count "Bug"
    feature_request := count "Feature Request"
    praise := count "Praise"
    complaint := count "Complaint"
    spam := count "Spam"
    other := count "Other"
    avg_confidence := avg
    category_accuracy := acc }

/-! ### Helper lemmas -/

/-- The critic fallback rewrites a non-compliant ticket's priority to Low. -/
theorem critic_fallback_pos {t : Ticket}
    (h : (t.category = "Spam" ∨ t.category = "Praise")
          ∧ (t.priority = "High" ∨ t.priority = "Critical")) :
    critic_fallback t = { t with priority := "Low" } := by
  unfold critic_fallback
  exact if_pos h

/-- The critic fallback leaves a compliant ticket unchanged. -/
theorem critic_fallback_neg {t : Ticket}
    (h : ¬((t.category = "Spam" ∨ t.category = "Praise")
            ∧ (t.priority = "High" ∨ t.priority = "Critical"))) :
    critic_fallback t = t := by
  unfold critic_fallback
  exact if_neg h

/-- The fallback-mode ticket's category is the fallback classification. -/
theorem row_to_ticket_fallback_category (review_id text : String)
    (rating : Option ℚ) (platform version source_type url now : String) :
    (row_to_ticket_fallback review_id text rating platform version
        source_type url now).category = (fallback_classify text rating).1 := rfl

/-- The fallback-mode ticket's priority comes from the category branch. -/
theorem row_to_ticket_fallback_priority (review_id text : String)
    (rating : Option ℚ) (platform version source_type url now : String) :
    (row_to_ticket_fallback review_id text rating platform version
        source_type url now).priority
      = (category_branch (fallback_classify text rating).1 text platform version).1 := rfl

/-! ### Claim theorems -/

/-- Claim C3: for every input text containing at least one Spam trigger
keyword, the fallback classifier returns category Spam with confidence
0.95, regardless of any other triggers present and of the rating. -/
theorem spam_trigger_preempts (text : String) (rating : Option ℚ)
    (h : contains_any text SPAM_TRIGGERS = true) :
    fallback_classify text rating = ("Spam", 0.95, "spam trigger") := by
  simp [fallback_classify, h]

/-- Witness for C3: a text with Bug, Feature, Praise and Complaint
triggers and a high rating is still classified Spam. -/
theorem spam_trigger_preempts_witness :
    contains_any "crash bug visit www.x.com please add love slow"
        SPAM_TRIGGERS = true
    ∧ fallback_classify "crash bug visit www.x.com please add love slow"
        (some 5) = ("Spam", 0.95, "spam trigger") :=
  ⟨by decide, spam_trigger_preempts _ (some 5) (by decide)⟩

/-- Claim C8: the fallback classifier is deterministic — identical
(text, rating) inputs yield identical (category, confidence, rationale)
triples. -/
theorem fallback_classify_deterministic (t₁ t₂ : String)
    (r₁ r₂ : Option ℚ) (ht : t₁ = t₂) (hr : r₁ = r₂) :
    fallback_classify t₁ r₁ = fallback_classify t₂ r₂ := by
  rw [ht, hr]

/-- Witness for C8 at a concrete input pair. -/
theorem fallback_classify_deterministic_witness :
    ("great app" : String) = "great app" ∧ (some (5 : ℚ)) = some 5
    ∧ fallback_classify "great app" (some 5)
        = fallback_classify "great app" (some 5) :=
  ⟨rfl, rfl,
   fallback_classify_deterministic "great app" "great app" (some 5) (some 5) rfl rfl⟩

/-- Claim C6: scenario A end to end in fallback mode — the crash/data-loss
text classifies as Bug with confidence 0.9, bug analysis yields severity
High, and the built ticket has priority High. -/
theorem scenario_a_bug_high :
    fallback_classify "App crashes on login, lost all my data" none
        = ("Bug", 0.9, "bug trigger")
    ∧ (fallback_bug_analysis "App crashes on login, lost all my data"
        "iOS" "2.3.1").1 = "High"
    ∧ (row_to_ticket_fallback "101" "App crashes on login, lost all my data"
        none "iOS" "2.3.1" "App Store Review" "" "2025-01-01 00:00:00").priority
      = "High" :=
  ⟨rfl, rfl, rfl⟩

/-- Claim C9: the critic fallback rule is idempotent — it leaves an
already-compliant ticket unchanged, and applying it twice equals applying
it once. -/
theorem critic_fallback_idempotent :
    (∀ t : Ticket,
       ¬((t.category = "Spam" ∨ t.category = "Praise")
           ∧ (t.priority = "High" ∨ t.priority = "Critical")) →
       critic_fallback t = t)
    ∧ ∀ t : Ticket, critic_fallback (critic_fallback t) = critic_fallback t := by
  constructor
  · intro t h
    exact critic_fallback_neg h
  · intro t
    by_cases h : (t.category = "Spam" ∨ t.category = "Praise")
        ∧ (t.priority = "High" ∨ t.priority = "Critical")
    · rw [critic_fallback_pos h]
      apply critic_fallback_neg
      rintro ⟨-, hP | hP⟩ <;> exact absurd hP (by simp)
    · rw [critic_fallback_neg h, critic_fallback_neg h]

/-- Witness for C9: a compliant Bug/High ticket is unchanged. -/
theorem critic_fallback_idempotent_witness :
    ¬(((⟨"T1", "1", "App Store Review", "Bug", "High", "t", "d",
          "2025-01-01", 0.9, ""⟩ : Ticket).category = "Spam"
        ∨ (⟨"T1", "1", "App Store Review", "Bug", "High", "t", "d",
          "2025-01-01", 0.9, ""⟩ : Ticket).category = "Praise")
       ∧ ((⟨"T1", "1", "App Store Review", "Bug", "High", "t", "d",
          "2025-01-01", 0.9, ""⟩ : Ticket).priority = "High"
        ∨ (⟨"T1", "1", "App Store Review", "Bug", "High", "t", "d",
          "2025-01-01", 0.9, ""⟩ : Ticket).priority = "Critical"))
    ∧ critic_fallback ⟨"T1", "1", "App Store Review", "Bug", "High", "t", "d",
          "2025-01-01", 0.9, ""⟩
      = ⟨"T1", "1", "App Store Review", "Bug", "High", "t", "d",
          "2025-01-01", 0.9, ""⟩ :=
  ⟨by decide,
   critic_fallback_idempotent.1
     ⟨"T1", "1", "App Store Review", "Bug", "High", "t", "d",
       "2025-01-01", 0.9, ""⟩ (by decide)⟩

/-- Claim C10: the critic fallback changes at most the priority field;
every other ticket field is returned unchanged (the source copies the
record, so the input is never mutated — purity is intrinsic to this
embedding). -/
theorem critic_fallback_frame (t : Ticket) :
    (critic_fallback t).ticket_id = t.ticket_id
    ∧ (critic_fallback t).source_id = t.source_id
    ∧ (critic_fallback t).source_type = t.source_type
    ∧ (critic_fallback t).category = t.category
    ∧ (critic_fallback t).title = t.title
    ∧ (critic_fallback t).technical_details = t.technical_details
    ∧ (critic_fallback t).created_at = t.created_at
    ∧ (critic_fallback t).confidence = t.confidence
    ∧ (critic_fallback t).link_back = t.link_back
    ∧ (critic_fallback t = t
        ∨ critic_fallback t = { t with priority := "Low" }) := by
  unfold critic_fallback
  split <;> simp

/-- Claim C1: the critic fallback forces priority to Low exactly when the
category is Spam or Praise and the priority is High or Critical, leaves
every other ticket unchanged, and in the fallback pipeline every ticket
whose category is Spam or Praise ends the critic step with priority Low. -/
theorem critic_enforces_spam_praise_low :
    (∀ t : Ticket,
       (t.category = "Spam" ∨ t.category = "Praise") →
       (t.priority = "High" ∨ t.priority = "Critical") →
       (critic_fallback t).priority = "Low")
    ∧ (∀ t : Ticket,
       ¬((t.category = "Spam" ∨ t.category = "Praise")
           ∧ (t.priority = "High" ∨ t.priority = "Critical")) →
       critic_fallback t = t)
    ∧ (∀ (review_id text : String) (rating : Option ℚ)
         (platform version source_type url now : String),
       ((row_to_ticket_fallback review_id text rating platform version
           source_type url now).category = "Spam"
        ∨ (row_to_ticket_fallback review_id text rating platform version
           source_type url now).category = "Praise") →
       (critic_fallback (row_to_ticket_fallback review_id text rating
           platform version source_type url now)).priority = "Low") := by
  refine ⟨?_, ?_, ?_⟩
  · intro t hc hp
    rw [critic_fallback_pos ⟨hc, hp⟩]
  · intro t h
    exact critic_fallback_neg h
  · intro review_id text rating platform version source_type url now h
    have hcat : (fallback_classify text rating).1 = "Spam"
        ∨ (fallback_classify text rating).1 = "Praise" := h
    have hp : (row_to_ticket_fallback review_id text rating platform version
        source_type url now).priority = "Low" := by
      rw [row_to_ticket_fallback_priority]
      rcases hcat with hc | hc <;> rw [hc] <;> rfl
    rw [critic_fallback_neg]
    · exact hp
    · rintro ⟨-, hP | hP⟩ <;> rw [hp] at hP <;> exact absurd hP (by simp)

/-- Witness for C1: a Spam ticket that arrived with priority High leaves
the critic with priority Low. -/
theorem critic_enforces_spam_praise_low_witness :
    ((⟨"T9", "9", "Support Email", "Spam", "High", "t", "d",
        "2025-01-01", 0.95, ""⟩ : Ticket).category = "Spam"
      ∨ (⟨"T9", "9", "Support Email", "Spam", "High", "t", "d",
        "2025-01-01", 0.95, ""⟩ : Ticket).category = "Praise")
    ∧ ((⟨"T9", "9", "Support Email", "Spam", "High", "t", "d",
        "2025-01-01", 0.95, ""⟩ : Ticket).priority = "High"
      ∨ (⟨"T9", "9", "Support Email", "Spam", "High", "t", "d",
        "2025-01-01", 0.95, ""⟩ : Ticket).priority = "Critical")
    ∧ (critic_fallback ⟨"T9", "9", "Support Email", "Spam", "High", "t", "d",
        "2025-01-01", 0.95, ""⟩).priority = "Low" :=
  ⟨Or.inl rfl, Or.inl rfl,
   critic_enforces_spam_praise_low.1
     ⟨"T9", "9", "Support Email", "Spam", "High", "t", "d",
       "2025-01-01", 0.95, ""⟩ (Or.inl rfl) (Or.inl rfl)⟩

/-- Claim C5: on an empty processing log `compute_metrics` returns
total_items = 0, zero for each of the six category counts and mean
confidence exactly 0 (no division), and for every input the total item
count equals the row count of the log. -/
theorem compute_metrics_empty_safe :
    (∀ expected : Option ExpectedTable,
       (compute_metrics [] expected).total_items = 0
       ∧ (compute_metrics [] expected).bug = 0
       ∧ (compute_metrics [] expected).feature_request = 0
       ∧ (compute_metrics [] expected).praise = 0
       ∧ (compute_metrics [] expected).complaint = 0
       ∧ (compute_metrics [] expected).spam = 0
       ∧ (compute_metrics [] expected).other = 0
       ∧ (compute_metrics [] expected).avg_confidence = 0)
    ∧ ∀ (log : List LogEntry) (expected : Option ExpectedTable),
        (compute_metrics log expected).total_items = log.length :=
  ⟨fun _ => ⟨rfl, rfl, rfl, rfl, rfl, rfl, rfl, rfl⟩, fun _ _ => rfl⟩

/-- Claim C2 (code bug): in `ask_json` only the two `json.loads` calls are
wrapped in `try/except`; the transport call (`generate_content` /
`resp.text`) is outside them, so a transport exception escapes the adapter
instead of yielding `None`.  Parse failures and the disabled client do
yield `None`. -/
theorem ask_json_transport_exception_escapes :
    ask_json true (.exn "ServiceUnavailable") (fun _ => none)
        = .error "ServiceUnavailable"
    ∧ ask_json true (.reply "no json here") (fun _ => none) = .ok none
    ∧ ask_json false (.exn "ServiceUnavailable") (fun _ => none) = .ok none :=
  ⟨rfl, rfl, rfl⟩

/-- Claim C7: for each of the four decision steps with a required key, a
backend reply that parses to a JSON object but lacks that step's required
key is handled exactly like an unavailable backend — the deterministic
fallback is invoked and its result used (classify requires `category`,
analyze-bug requires `severity`, extract-feature requires `impact`,
compose requires `title` and `body`). -/
theorem missing_required_key_falls_back :
    (∀ (kvs : List (String × PyVal)) (text : String) (rating : Option ℚ),
       lookupKV kvs "category" = none →
       classify_with_gemini true (some (.obj kvs)) text rating
           = classify_with_gemini true none text rating
         ∧ classify_with_gemini true (some (.obj kvs)) text rating
           = fallback_classify text rating)
    ∧ (∀ (kvs : List (String × PyVal)) (text platform app_version : String),
       lookupKV kvs "severity" = none →
       analyze_bug_with_gemini true (some (.obj kvs)) text platform app_version
           = analyze_bug_with_gemini true none text platform app_version
         ∧ analyze_bug_with_gemini true (some (.obj kvs)) text platform app_version
           = fallback_bug_analysis text platform app_version)
    ∧ (∀ (kvs : List (String × PyVal)) (text : String),
       lookupKV kvs "impact" = none →
       extract_feature_with_gemini true (some (.obj kvs)) text
           = extract_feature_with_gemini true none text
         ∧ extract_feature_with_gemini true (some (.obj kvs)) text
           = fallback_feature text)
    ∧ (∀ (kvs : List (String × PyVal)) (th bh : String),
       lookupKV kvs "title" = none ∨ lookupKV kvs "body" = none →
       compose_ticket_with_gemini true (some (.obj kvs)) th bh
           = compose_ticket_with_gemini true none th bh
         ∧ compose_ticket_with_gemini true (some (.obj kvs)) th bh
           = (pyTake th 80, pyTake bh 400)) := by
  refine ⟨?_, ?_, ?_, ?_⟩
  · intro kvs text rating h
    constructor <;> simp [classify_with_gemini, h]
  · intro kvs text platform app_version h
    constructor <;> simp [analyze_bug_with_gemini, h]
  · intro kvs text h
    constructor <;> simp [extract_feature_with_gemini, h]
  · intro kvs th bh h
    rcases h with h | h
    · constructor <;> simp [compose_ticket_with_gemini, h]
    · rcases hlt : lookupKV kvs "title" with _ | tv <;>
        constructor <;> simp [compose_ticket_with_gemini, hlt, h]

/-- Witness for C7: a reply carrying only `severity` makes the classify
step return the fallback classification, a reply carrying only `category`
makes the analyze-bug and extract-feature steps return their fallbacks. -/
theorem missing_required_key_falls_back_witness :
    lookupKV [("severity", PyVal.str "High")] "category" = none
    ∧ classify_with_gemini true
        (some (.obj [("severity", PyVal.str "High")])) "app is slow" none
      = fallback_classify "app is slow" none
    ∧ lookupKV [("category", PyVal.str "Bug")] "severity" = none
    ∧ analyze_bug_with_gemini true
        (some (.obj [("category", PyVal.str "Bug")])) "it crashes" "iOS" "1.0"
      = fallback_bug_analysis "it crashes" "iOS" "1.0"
    ∧ lookupKV [("category", PyVal.str "Bug")] "impact" = none
    ∧ extract_feature_with_gemini true
        (some (.obj [("category", PyVal.str "Bug")])) "please add dark mode"
      = fallback_feature "please add dark mode" :=
  ⟨rfl,
   (missing_required_key_falls_back.1 [("severity", PyVal.str "High")]
     "app is slow" none rfl).2,
   rfl,
   (missing_required_key_falls_back.2.1 [("category", PyVal.str "Bug")]
     "it crashes" "iOS" "1.0" rfl).2,
   rfl,
   (missing_required_key_falls_back.2.2.1 [("category", PyVal.str "Bug")]
     "please add dark mode" rfl).2⟩

/-- Counterexample to claim C4 as stated: with a reference table that has
a category column but whose single row joins no log row, the join is
empty yet the accuracy metric is still reported (as 0), not omitted. -/
theorem accuracy_reported_on_empty_join :
    merge_on_source_id
        [{ source_id := "1", source_type := "App Store Review",
           category := "Bug", priority := "High", confidence := 0.9 }]
        [{ source_id := "2", category := "Bug" }] = []
    ∧ (compute_metrics
        [{ source_id := "1", source_type := "App Store Review",
           category := "Bug", priority := "High", confidence := 0.9 }]
        (some { has_category := true,
                rows := [{ source_id := "2", category := "Bug" }] })).category_accuracy
      = some 0 :=
  ⟨rfl, rfl⟩

/-- Claim C4 (amended): when a reference with a category column is
supplied, the metric joins on source id and reports the fraction of
joined rows whose logged category equals the expected category; on an
empty join it is reported as 0 (not omitted); it is omitted exactly when
no reference is supplied or the reference lacks the category column. -/
theorem category_accuracy_spec (log : List LogEntry) (ref : ExpectedTable) :
    (compute_metrics log none).category_accuracy = none
    ∧ (ref.has_category = false →
        (compute_metrics log (some ref)).category_accuracy = none)
    ∧ (ref.has_category = true → merge_on_source_id log ref.rows = [] →
        (compute_metrics log (some ref)).category_accuracy = some 0)
    ∧ (ref.has_category = true → merge_on_source_id log ref.rows ≠ [] →
        (compute_metrics log (some ref)).category_accuracy
          = some ((((merge_on_source_id log ref.rows).filter
                      (fun p => p.1.category = p.2.category)).length : ℚ)
                    / ((merge_on_source_id log ref.rows).length : ℚ))) := by
  refine ⟨rfl, ?_, ?_, ?_⟩
  · intro h
    simp [compute_metrics, h]
  · intro h hm
    simp [compute_metrics, h, hm]
  · intro h hm
    have hl : (merge_on_source_id log ref.rows).length ≠ 0 := by
      simpa [List.length_eq_zero] using hm
    simp [compute_metrics, h, hl]

/-- Witness for C4's amended theorem: a reference row joining the single
log row produces a reported accuracy value. -/
theorem category_accuracy_spec_witness :
    ({ has_category := true,
       rows := [{ source_id := "7", category := "Bug" }] } : ExpectedTable).has_category = true
    ∧ merge_on_source_id
        [{ source_id := "7", source_type := "App Store Review",
           category := "Bug", priority := "High", confidence := 0.75 }]
        [{ source_id := "7", category := "Bug" }] ≠ []
    ∧ (compute_metrics
        [{ source_id := "7", source_type := "App Store Review",
           category := "Bug", priority := "High", confidence := 0.75 }]
        (some { has_category := true,
                rows := [{ source_id := "7", category := "Bug" }] })).category_accuracy
      = some ((((merge_on_source_id
            [{ source_id := "7", source_type := "App Store Review",
               category := "Bug", priority := "High", confidence := 0.75 }]
            [{ source_id := "7", category := "Bug" }]).filter
              (fun p => p.1.category = p.2.category)).length : ℚ)
            / ((merge_on_source_id
            [{ source_id := "7", source_type := "App Store Review",
               category := "Bug", priority := "High", confidence := 0.75 }]
            [{ source_id := "7", category := "Bug" }]).length : ℚ)) :=
  ⟨rfl, List.cons_ne_nil _ _,
   (category_accuracy_spec
      [{ source_id := "7", source_type := "App Store Review",
         category := "Bug", priority := "High", confidence := 0.75 }]
      { has_category := true,
        rows := [{ source_id := "7", category := "Bug" }] }).2.2.2
     rfl (List.cons_ne_nil _ _)⟩

end Capstone
